import Mathlib

/-!
Verification of the filestore core of OasisDataManager
(`oasis_data_manager/filestore/backends/base.py`): a shallow embedding of its
POSIX path handling, URL detection, root-jailed filesystem checks
(`StrictRootDirFs`), the content cache (`BaseStorage.get_from_cache`),
`BaseStorage.get`, and the delete operations, together with theorems that
settle the specification claims about them.

All definitions are translated from the Python source.  External collaborators
(the OS path routines `os.path.normpath` / `abspath` / `join` / `basename`,
`urllib.parse.urlparse`, and the fsspec `DirFileSystem._join`) are embedded
following their documented POSIX semantics, because the source calls them
directly and the claims depend on their behaviour.
-/

/-! ## String helpers (structural-recursion stand-ins for `str` methods) -/

/-- Python `s.startswith(p)`. -/
def str_startswith (s p : String) : Bool :=
  p.data.isPrefixOf s.data

/-- Python `s.endswith(p)`. -/
def str_endswith (s p : String) : Bool :=
  p.data.reverse.isPrefixOf s.data.reverse

/-- Split a character list on `'/'` (used by the `normpath` model). -/
def splitOnSlash : List Char → List (List Char)
  | [] => [[]]
  | c :: cs =>
    if c = '/' then [] :: splitOnSlash cs
    else
      match splitOnSlash cs with
      | [] => [[c]]
      | g :: gs => (c :: g) :: gs

/-- Join path components with `'/'` (inverse direction of `splitOnSlash`). -/
def joinComps : List String → String
  | [] => ""
  | [x] => x
  | x :: xs => x ++ "/" ++ joinComps xs

/-! ## `os.path` model (POSIX semantics, as used by the source) -/

/-- One step of `posixpath.normpath`'s component loop: skip `""` and `"."`,
push ordinary components, and let `".."` pop the previous component unless the
path is relative and there is nothing to pop (or only `".."`s so far). -/
def npStep (isAbs : Bool) (acc : List String) (comp : String) : List String :=
  if comp = "" || comp = "." then acc
  else if comp ≠ ".." then acc ++ [comp]
  else if (!isAbs && acc = []) || (acc ≠ [] && acc.getLast? = some "..") then acc ++ [comp]
  else acc.dropLast

/-- `posixpath.normpath`: collapse `.`/`..` and duplicate slashes, preserving
the special leading-`//` prefix exactly as CPython does. -/
def normpath (p : String) : String :=
  let isAbs := str_startswith p "/"
  let dbl := str_startswith p "//" && !(str_startswith p "///")
  let comps := (splitOnSlash p.data).map (fun l => String.mk l)
  let body := joinComps (comps.foldl (npStep isAbs) [])
  let res := (if dbl then "//" else if isAbs then "/" else "") ++ body
  if res = "" then "." else res

/-- Two-argument `posixpath.join`. -/
def os_path_join (a b : String) : String :=
  if str_startswith b "/" then b
  else if a = "" || str_endswith a "/" then a ++ b
  else a ++ "/" ++ b

/-- `posixpath.abspath` relative to an explicit current working directory. -/
def os_path_abspath (cwd p : String) : String :=
  normpath (os_path_join cwd p)

/-- `posixpath.basename`: the part after the last `'/'`. -/
def os_path_basename (p : String) : String :=
  String.mk ((p.data.reverse.takeWhile (fun c => c ≠ '/')).reverse)

/-! ## `urllib.parse.urlparse` model (the fields the source consults) -/

/-- The characters CPython admits inside a URL scheme. -/
def isSchemeChar (c : Char) : Bool :=
  c.isAlphanum || c = '+' || c = '-' || c = '.'

/-- Split at the first occurrence of `stop`; if absent, everything is "before". -/
def splitAtChar (stop : Char) : List Char → List Char × List Char
  | [] => ([], [])
  | c :: cs =>
    if c = stop then ([], cs)
    else
      let r := splitAtChar stop cs
      (c :: r.1, r.2)

/-- Scan for a `':'` preceded only by scheme characters; `none` when the URL
has no scheme part. -/
def schemeSplit : List Char → Option (List Char × List Char)
  | [] => none
  | c :: cs =>
    if c = ':' then some ([], cs)
    else if isSchemeChar c then
      match schemeSplit cs with
      | some (a, b) => some (c :: a, b)
      | none => none
    else none

/-- Take characters until one of `stops` is hit (the stop stays in the rest). -/
def takeUntilStops (stops : List Char) : List Char → List Char × List Char
  | [] => ([], [])
  | c :: cs =>
    if stops.contains c then ([], c :: cs)
    else
      let r := takeUntilStops stops cs
      (c :: r.1, r.2)

def headIsAlpha : List Char → Bool
  | [] => false
  | c :: _ => c.isAlpha

structure UrlParts where
  scheme : String
  netloc : String
  path : String
deriving DecidableEq

/-- `urllib.parse.urlparse`, restricted to the `scheme`, `netloc` and `path`
fields the source reads: fragment split at `'#'`, scheme recognised when a
leading alphabetic run of scheme characters precedes `':'` (then lowercased),
netloc only after a literal `"//"`, query split at `'?'`. -/
def urlparse (u : String) : UrlParts :=
  let noFrag := (splitAtChar '#' u.data).1
  let sr : List Char × List Char :=
    match schemeSplit noFrag with
    | some (sch, rest) =>
      if sch ≠ [] && headIsAlpha sch then (sch, rest) else ([], noFrag)
    | none => ([], noFrag)
  let nl : List Char × List Char :=
    match sr.2 with
    | '/' :: '/' :: r2 => takeUntilStops ['/', '?', '#'] r2
    | r => ([], r)
  ⟨String.mk (sr.1.map Char.toLower), String.mk nl.1, String.mk (splitAtChar '?' nl.2).1⟩

/-- `BaseStorage._is_valid_url`: non-empty, truthy scheme and netloc, and the
scheme is `http` or `https`. -/
def is_valid_url (url : String) : Bool :=
  if url = "" then false
  else
    let r := urlparse url
    (!(r.scheme = "") && !(r.netloc = "")) && (r.scheme = "http" || r.scheme = "https")

/-! ## `StrictRootDirFs` path jail -/

/-- `StrictRootDirFs._path_is_in_root`:
`os.path.abspath(path).startswith(os.path.abspath(self.path))`. -/
def path_is_in_root (cwd root p : String) : Bool :=
  str_startswith (os_path_abspath cwd p) (os_path_abspath cwd root)

/-- `AbstractFileSystem._strip_protocol` as it acts on plain paths: trailing
slashes removed (no protocol prefixes occur in the claims). -/
def strip_trailing_slashes (s : String) : String :=
  String.mk ((s.data.reverse.dropWhile (fun c => c = '/')).reverse)

/-- fsspec `DirFileSystem._join` for a string argument: empty root or empty
path short-circuit, otherwise `root + "/" + stripped path`. -/
def dirfs_join (root p : String) : String :=
  if root = "" then p
  else if p = "" then root
  else root ++ "/" ++ strip_trailing_slashes p

/-- `StrictRootDirFs._join` (string case): produce the joined path, raising
`FileNotFoundError(path)` (modelled as `Except.error p`) when
`_path_is_in_root` rejects it. -/
def strict_join (cwd root p : String) : Except String String :=
  let res := dirfs_join root p
  if path_is_in_root cwd root res then Except.ok res else Except.error p

/-- Modelled from the spec: the directory-boundary "descendant of the root"
check the specification demands of path resolution (the path, in normalized
absolute form, is the root itself or lies strictly below `root ++ "/"`).
Stated only to be compared against the source's `path_is_in_root`. -/
def spec_is_descendant (root p : String) : Bool :=
  p = root || str_startswith p (root ++ "/")

/-! ## The storage model

The environment `Env` holds what the backends serve; the state `St` holds the
local machine's named files (`disk`, keyed by absolute path: the cache
directory's blobs, fallback targets and `get` outputs) and the anonymous
temporary files produced by `tempfile.NamedTemporaryFile(delete=False)`
(`tmp`, keyed by creation index — `tempfile` guarantees these names collide
with nothing else).  Download, hashing and temp-creation counters make
transfer behaviour observable. -/

/-- File contents. -/
abbrev Bytes := List Nat

/-- A backend byte stream: the chunks `read` yields in order, and whether the
stream raises after yielding them (an object vanishing mid-read). -/
structure ByteStream where
  chunks : List Bytes
  fails : Bool
deriving DecidableEq

/-- The exceptions the embedded code can raise. -/
inductive PyErr where
  /-- `MissingInputsException` (empty reference with `required=True`). -/
  | missingInputs (ref : String)
  /-- The `OasisException` of base.py line 219: cache disabled and no
  `no_cache_target` given (the spec's `ConfigurationError`). -/
  | configError
  /-- `FileNotFoundError` / a failing `urlopen`. -/
  | fileNotFound (p : String)
  /-- `IsADirectoryError` from opening a directory for reading. -/
  | isADirectory (p : String)
  /-- An I/O error raised by the stream in mid-read. -/
  | ioError
deriving DecidableEq

/-- The backend environment of one `BaseStorage` instance.  `hash` models
`xxhash.xxh64(...).hexdigest()` and is an arbitrary function (no property of
xxHash is assumed).  `hasToken` records for which references the backend's
metadata would report a revision token; the source never performs that
metadata call, so no definition below reads this field. -/
structure Env where
  hash : Bytes → String
  fsFiles : List (String × ByteStream)
  fsDirs : List String
  urlFiles : List (String × ByteStream)
  localDirs : List String
  hasToken : List String

/-- Local mutable state threaded through the operations. -/
structure St where
  disk : String → Option Bytes
  tmp : Nat → Option Bytes
  tmpCounter : Nat
  fsDownloads : Nat
  urlDownloads : Nat
  hashCount : Nat

/-- The empty local state. -/
def emptySt : St :=
  { disk := fun _ => none, tmp := fun _ => none,
    tmpCounter := 0, fsDownloads := 0, urlDownloads := 0, hashCount := 0 }

/-- `urlopen(reference)`: succeed with the stream when the URL serves one. -/
def url_open (env : Env) (ref : String) : Except PyErr ByteStream :=
  match env.urlFiles.lookup ref with
  | some s => Except.ok s
  | none => Except.error (PyErr.fileNotFound ref)

/-- `self.fs.open(reference, "rb")` on the jailed filesystem: a directory
cannot be opened for reading, a missing path raises `FileNotFoundError`. -/
def fs_open (env : Env) (ref : String) : Except PyErr ByteStream :=
  if env.fsDirs.contains ref then Except.error (PyErr.isADirectory ref)
  else
    match env.fsFiles.lookup ref with
    | some s => Except.ok s
    | none => Except.error (PyErr.fileNotFound ref)

/-- base.py lines 236-239: `urlopen(reference)` when `_is_valid_url`, else
`self.fs.open(reference, "rb")`. -/
def cache_open (env : Env) (ref : String) : Except PyErr ByteStream :=
  if is_valid_url ref then url_open env ref else fs_open env ref

/-- `self.fs.get(reference, target, recursive=True)`: copy a file's bytes to
`target`, counting one transfer.  A directory reference is copied tree-wise
by fsspec; its individual entries are not modelled here (no claim depends on
them), only the transfer count is recorded. -/
def fs_get (env : Env) (ref tgt : String) (st : St) : Except PyErr Unit × St :=
  match env.fsFiles.lookup ref with
  | some s =>
    if s.fails then
      (Except.error PyErr.ioError, { st with fsDownloads := st.fsDownloads + 1 })
    else
      (Except.ok (), { st with fsDownloads := st.fsDownloads + 1,
                               disk := fun p => if p = tgt then some s.chunks.flatten else st.disk p })
  | none =>
    if env.fsDirs.contains ref then
      (Except.ok (), { st with fsDownloads := st.fsDownloads + 1 })
    else (Except.error (PyErr.fileNotFound ref), st)

/-- Write the stream's chunks one by one into temporary file `idx`
(the loop body of `_read_and_hash`); also returns the intermediate states
after each chunk, for the publication-atomicity statements. -/
def write_chunks (idx : Nat) (st : St) : List Bytes → St × List St
  | [] => (st, [])
  | c :: cs =>
    let stW : St :=
      { st with tmp := fun n => if n = idx then some ((st.tmp idx).getD [] ++ c) else st.tmp n }
    let r := write_chunks idx stW cs
    (r.1, stW :: r.2)

/-- `BaseStorage._read_and_hash`: create a `NamedTemporaryFile(delete=False)`,
read the stream chunkwise, hashing while writing.  Returns the hex digest and
the temp-file handle.  A stream failure propagates with the temp file still
on disk (the source has no cleanup on that path).  The incremental xxh64 over
the chunks equals the hash of their concatenation. -/
def read_and_hash (hash : Bytes → String) (s : ByteStream) (st : St) :
    Except PyErr (String × Nat) × St × List St :=
  let idx := st.tmpCounter
  let st0 : St :=
    { st with tmpCounter := st.tmpCounter + 1,
              hashCount := st.hashCount + 1,
              tmp := fun n => if n = idx then some [] else st.tmp n }
  let w := write_chunks idx st0 s.chunks
  if s.fails then (Except.error PyErr.ioError, w.1, st0 :: w.2)
  else (Except.ok (hash s.chunks.flatten, idx), w.1, st0 :: w.2)

/-- base.py lines 216-229 (`get_from_cache`, cache disabled): `no_cache_target`
is mandatory; a valid URL is fetched whole by `urlopen(...).read()` and written
to the target, anything else goes through the jailed filesystem via `fs.get`. -/
def no_cache_resolve (env : Env) (ref tgt : String) (st : St) :
    Except PyErr (Option String) × St × List St :=
  if is_valid_url ref then
    match url_open env ref with
    | Except.error e => (Except.error e, st, [])
    | Except.ok s =>
      let st1 := { st with urlDownloads := st.urlDownloads + 1 }
      if s.fails then (Except.error PyErr.ioError, st1, [])
      else
        let st2 := { st1 with disk := fun p => if p = tgt then some s.chunks.flatten else st1.disk p }
        (Except.ok (some tgt), st2, [st2])
  else
    match fs_get env ref tgt st with
    | (Except.error e, st1) => (Except.error e, st1, [])
    | (Except.ok _, st1) => (Except.ok (some tgt), st1, [st1])

/-- base.py lines 231-253 (`get_from_cache`, caching enabled): open the
object (URL or jailed filesystem), stream it into a temp file while hashing,
then publish: if a blob named by the hash already exists under the cache root,
`os.unlink` the temp file, otherwise `os.replace` (atomic rename) the temp
file to the blob path.  Returns `str(cached_path)`. -/
def cache_publish (hash : Bytes → String) (cr : String) (s : ByteStream) (st1 : St) :
    Except PyErr (Option String) × St × List St :=
  match read_and_hash hash s st1 with
  | (Except.error e, st2, tr) => (Except.error e, st2, tr)
  | (Except.ok hi, st2, tr) =>
    let cachedPath := cr ++ "/" ++ hi.1
    if (st2.disk cachedPath).isSome then
      let st3 := { st2 with tmp := fun n => if n = hi.2 then none else st2.tmp n }
      (Except.ok (some cachedPath), st3, tr ++ [st3])
    else
      let st3 :=
        { st2 with tmp := fun n => if n = hi.2 then none else st2.tmp n,
                   disk := fun p => if p = cachedPath then some ((st2.tmp hi.2).getD []) else st2.disk p }
      (Except.ok (some cachedPath), st3, tr ++ [st3])

def cached_resolve (env : Env) (cr ref : String) (st : St) :
    Except PyErr (Option String) × St × List St :=
  match cache_open env ref with
  | Except.error e => (Except.error e, st, [])
  | Except.ok s =>
    let st1 :=
      if is_valid_url ref then { st with urlDownloads := st.urlDownloads + 1 }
      else { st with fsDownloads := st.fsDownloads + 1 }
    cache_publish env.hash cr s st1

/-- `BaseStorage.get_from_cache(reference, required, no_cache_target)`.
The third component of the result lists the intermediate on-disk states of the
operation (one entry per primitive filesystem effect). -/
def get_from_cache (env : Env) (cacheRoot : Option String) (reference : String)
    (required : Bool) (noCacheTarget : Option String) (st : St) :
    Except PyErr (Option String) × St × List St :=
  if reference = "" then
    (if required then Except.error (PyErr.missingInputs reference) else Except.ok none, st, [])
  else
    match cacheRoot with
    | none =>
      match noCacheTarget with
      | none => (Except.error PyErr.configError, st, [])
      | some tgt => no_cache_resolve env reference tgt st
    | some cr => cached_resolve env cr reference st

/-- `BaseStorage.get(reference, output_path, subdir, required)`: compute the
target (note the source joins the derived filename onto `output_path`, not
onto the `output_path/subdir` target), resolve through the cache with the
target as fallback, copy when the resolved path differs, return the target. -/
def storage_get (env : Env) (cwd : String) (cacheRoot : Option String)
    (reference output_path subdir : String) (required : Bool) (st : St) :
    Except PyErr (Option String) × St :=
  if reference = "" then
    (if required then Except.error (PyErr.missingInputs reference) else Except.ok none, st)
  else
    let target0 := os_path_abspath cwd (if subdir = "" then output_path else os_path_join output_path subdir)
    let target :=
      if env.localDirs.contains target0 then
        let fname := if is_valid_url reference then os_path_basename (urlparse reference).path else reference
        os_path_join output_path fname
      else target0
    match get_from_cache env cacheRoot reference required (some target) st with
    | (Except.error e, st1, _) => (Except.error e, st1)
    | (Except.ok none, st1, _) => (Except.ok none, st1)
    | (Except.ok (some res), st1, _) =>
      if res = target then (Except.ok (some target), st1)
      else
        match st1.disk res with
        | some b =>
          (Except.ok (some target),
           { st1 with disk := fun p => if p = target then some b else st1.disk p })
        | none => (Except.error (PyErr.fileNotFound res), st1)

/-! ## Delete operations

`delete_file` / `delete_dir` act on the jailed filesystem; the remote store is
modelled by the absolute paths of its files and directories.  Probes go
through `DirFileSystem._join` plus the `StrictRootDirFs` root check (an escape
raises `FileNotFoundError`, which the probe catches, yielding `false`). -/

structure RemoteSt where
  files : List String
  dirs : List String
deriving DecidableEq

/-- `StrictRootDirFs.isfile(reference)` over the remote model. -/
def strict_isfile (cwd root : String) (r : RemoteSt) (ref : String) : Bool :=
  let j := dirfs_join root ref
  path_is_in_root cwd root j && r.files.contains (os_path_abspath cwd j)

/-- `StrictRootDirFs.isdir(reference)` over the remote model. -/
def strict_isdir (cwd root : String) (r : RemoteSt) (ref : String) : Bool :=
  let j := dirfs_join root ref
  path_is_in_root cwd root j && r.dirs.contains (os_path_abspath cwd j)

/-- `BaseStorage.delete_file`: delete only a confirmed file, otherwise log and
do nothing (never raises).  The Bool reports whether a deletion happened. -/
def delete_file (cwd root : String) (r : RemoteSt) (ref : String) : RemoteSt × Bool :=
  if strict_isfile cwd root r ref then
    ({ r with files := r.files.erase (os_path_abspath cwd (dirfs_join root ref)) }, true)
  else (r, false)

/-- `BaseStorage.delete_dir`: delete only a confirmed directory, refusing when
`Path("/") == Path(reference).resolve()` — i.e. when the reference string,
resolved as an OS path against the process working directory, is the
filesystem root `"/"`; otherwise recursively delete the resolved subtree. -/
def delete_dir (cwd root : String) (r : RemoteSt) (ref : String) : RemoteSt × Bool :=
  if strict_isdir cwd root r ref then
    if os_path_abspath cwd ref = "/" then (r, false)
    else
      let tgt := os_path_abspath cwd (dirfs_join root ref)
      ({ files := r.files.filter (fun f => !(f = tgt || str_startswith f (tgt ++ "/"))),
         dirs := r.dirs.filter (fun d => !(d = tgt || str_startswith d (tgt ++ "/"))) }, true)
  else (r, false)

/-! ## Concrete backend environments used by the claim theorems -/

/-- A backend with one unchanged filesystem object `"r"` (whose metadata
would supply a revision token both times). -/
def envUnchanged : Env :=
  { hash := fun _ => "H", fsFiles := [("r", ⟨[[1, 2]], false⟩)], fsDirs := [],
    urlFiles := [], localDirs := [], hasToken := ["r"] }

/-- A backend whose metadata reports no revision token for any reference. -/
def envNoToken : Env :=
  { hash := fun _ => "H", fsFiles := [("r", ⟨[[1, 2]], false⟩)], fsDirs := [],
    urlFiles := [], localDirs := [], hasToken := [] }

/-- A backend on which reference `"d"` is a directory. -/
def envDirRef : Env :=
  { hash := fun _ => "H", fsFiles := [], fsDirs := ["d"],
    urlFiles := [], localDirs := [], hasToken := ["d"] }

/-- A backend whose object `"r"` streams two chunks and then errors. -/
def envMidReadFail : Env :=
  { hash := fun _ => "H", fsFiles := [("r", ⟨[[1, 2], [3]], true⟩)], fsDirs := [],
    urlFiles := [], localDirs := [], hasToken := ["r"] }

/-- Two distinct references `"a"` and `"b"` serving byte-identical content
(chunked differently) under an arbitrary concrete hash function. -/
def envDedup : Env :=
  { hash := fun _ => "H", fsFiles := [("a", ⟨[[1, 2]], false⟩), ("b", ⟨[[1], [2]], false⟩)],
    fsDirs := [], urlFiles := [], localDirs := [], hasToken := ["a", "b"] }

/-- A backend with one URL object and one filesystem object, for the C5
witness. -/
def envNoCacheRoot : Env :=
  { hash := fun _ => "H", fsFiles := [("k", ⟨[[5]], false⟩)], fsDirs := [],
    urlFiles := [("http://h/f.txt", ⟨[[9]], false⟩)], localDirs := [], hasToken := [] }

/-- A backend with file `a.txt`, where the local output directory
`/out/sub` exists. -/
def envSubdirTarget : Env :=
  { hash := fun _ => "H", fsFiles := [("a.txt", ⟨[[7]], false⟩)], fsDirs := [],
    urlFiles := [], localDirs := ["/out/sub"], hasToken := ["a.txt"] }

/-- A backend with a filesystem object registered under the empty reference
string. -/
def envEmptyRef : Env :=
  { hash := fun _ => "H", fsFiles := [("", ⟨[[1]], false⟩)], fsDirs := [],
    urlFiles := [], localDirs := [], hasToken := [] }

/-! ## Helper lemmas about the streaming loop and the caching-enabled resolve -/

theorem write_chunks_fst_disk : ∀ (cs : List Bytes) (idx : Nat) (st : St),
    (write_chunks idx st cs).1.disk = st.disk
  | [], _, _ => rfl
  | c :: cs, idx, st => by
    simpa only [write_chunks] using write_chunks_fst_disk cs idx _

theorem write_chunks_fst_tmpCounter : ∀ (cs : List Bytes) (idx : Nat) (st : St),
    (write_chunks idx st cs).1.tmpCounter = st.tmpCounter
  | [], _, _ => rfl
  | c :: cs, idx, st => by
    simpa only [write_chunks] using write_chunks_fst_tmpCounter cs idx _

theorem write_chunks_fst_fsDownloads : ∀ (cs : List Bytes) (idx : Nat) (st : St),
    (write_chunks idx st cs).1.fsDownloads = st.fsDownloads
  | [], _, _ => rfl
  | c :: cs, idx, st => by
    simpa only [write_chunks] using write_chunks_fst_fsDownloads cs idx _

theorem write_chunks_fst_urlDownloads : ∀ (cs : List Bytes) (idx : Nat) (st : St),
    (write_chunks idx st cs).1.urlDownloads = st.urlDownloads
  | [], _, _ => rfl
  | c :: cs, idx, st => by
    simpa only [write_chunks] using write_chunks_fst_urlDownloads cs idx _

theorem write_chunks_fst_hashCount : ∀ (cs : List Bytes) (idx : Nat) (st : St),
    (write_chunks idx st cs).1.hashCount = st.hashCount
  | [], _, _ => rfl
  | c :: cs, idx, st => by
    simpa only [write_chunks] using write_chunks_fst_hashCount cs idx _

theorem write_chunks_fst_tmp_ne : ∀ (cs : List Bytes) (idx : Nat) (st : St) (n : Nat),
    n ≠ idx → (write_chunks idx st cs).1.tmp n = st.tmp n
  | [], _, _, _, _ => rfl
  | c :: cs, idx, st, n, hn => by
    simp only [write_chunks]
    rw [write_chunks_fst_tmp_ne cs idx _ n hn]
    simp [hn]

theorem write_chunks_fst_tmp_self : ∀ (cs : List Bytes) (idx : Nat) (st : St) (b : Bytes),
    st.tmp idx = some b → (write_chunks idx st cs).1.tmp idx = some (b ++ cs.flatten)
  | [], _, _, _, h => by simpa using h
  | c :: cs, idx, st, b, h => by
    simp only [write_chunks]
    rw [write_chunks_fst_tmp_self cs idx _ (b ++ c) (by simp [h])]
    simp

theorem write_chunks_trace_disk : ∀ (cs : List Bytes) (idx : Nat) (st : St),
    ∀ x ∈ (write_chunks idx st cs).2, x.disk = st.disk
  | [], _, _ => by simp [write_chunks]
  | c :: cs, idx, st => by
    simp only [write_chunks, List.mem_cons]
    rintro x (rfl | hx)
    · rfl
    · have h2 := write_chunks_trace_disk cs idx _ x hx
      exact h2

/-- On a non-failing stream, `read_and_hash` reduces to: bump the counters,
create temp file `st.tmpCounter`, stream the chunks into it. -/
theorem read_and_hash_spec (h : Bytes → String) (s : ByteStream) (st : St)
    (hf : s.fails = false) :
    read_and_hash h s st =
      (Except.ok (h s.chunks.flatten, st.tmpCounter),
       (write_chunks st.tmpCounter
         { st with tmpCounter := st.tmpCounter + 1, hashCount := st.hashCount + 1,
                   tmp := fun n => if n = st.tmpCounter then some [] else st.tmp n } s.chunks).1,
       { st with tmpCounter := st.tmpCounter + 1, hashCount := st.hashCount + 1,
                 tmp := fun n => if n = st.tmpCounter then some [] else st.tmp n } ::
       (write_chunks st.tmpCounter
         { st with tmpCounter := st.tmpCounter + 1, hashCount := st.hashCount + 1,
                   tmp := fun n => if n = st.tmpCounter then some [] else st.tmp n } s.chunks).2) := by
  unfold read_and_hash
  rw [hf]
  simp

theorem read_and_hash_ok (h : Bytes → String) (s : ByteStream) (st : St)
    (hf : s.fails = false) :
    (read_and_hash h s st).1 = Except.ok (h s.chunks.flatten, st.tmpCounter) ∧
    (read_and_hash h s st).2.1.disk = st.disk ∧
    (read_and_hash h s st).2.1.tmp st.tmpCounter = some s.chunks.flatten ∧
    (∀ n, n ≠ st.tmpCounter → (read_and_hash h s st).2.1.tmp n = st.tmp n) ∧
    (read_and_hash h s st).2.1.tmpCounter = st.tmpCounter + 1 ∧
    (read_and_hash h s st).2.1.fsDownloads = st.fsDownloads ∧
    (read_and_hash h s st).2.1.urlDownloads = st.urlDownloads ∧
    (read_and_hash h s st).2.1.hashCount = st.hashCount + 1 ∧
    (∀ x ∈ (read_and_hash h s st).2.2, x.disk = st.disk) := by
  rw [read_and_hash_spec h s st hf]
  refine ⟨rfl, ?_, ?_, ?_, ?_, ?_, ?_, ?_, ?_⟩
  · rw [write_chunks_fst_disk]
  · rw [write_chunks_fst_tmp_self s.chunks st.tmpCounter _ [] (by simp)]
    simp
  · intro n hn
    rw [write_chunks_fst_tmp_ne s.chunks st.tmpCounter _ n hn]
    simp [hn]
  · rw [write_chunks_fst_tmpCounter]
  · rw [write_chunks_fst_fsDownloads]
  · rw [write_chunks_fst_urlDownloads]
  · rw [write_chunks_fst_hashCount]
  · intro x hx
    simp only [List.mem_cons] at hx
    rcases hx with rfl | hx
    · rfl
    · have h2 := write_chunks_trace_disk s.chunks st.tmpCounter _ x hx
      exact h2

/-- On a non-failing stream the publish phase returns the blob path. -/
theorem cache_publish_res (h : Bytes → String) (cr : String) (s : ByteStream) (st1 : St)
    (hf : s.fails = false) :
    (cache_publish h cr s st1).1 = Except.ok (some (cr ++ "/" ++ h s.chunks.flatten)) := by
  obtain ⟨h1, _⟩ := read_and_hash_ok h s st1 hf
  unfold cache_publish
  rcases hrw : read_and_hash h s st1 with ⟨res, st2, tr⟩
  rw [hrw] at h1
  simp only at h1
  subst h1
  simp only
  cases hq : (st2.disk (cr ++ "/" ++ h s.chunks.flatten)).isSome <;> simp [hq]

/-- When no blob existed at the blob path, the temp file's full contents are
published there. -/
theorem cache_publish_disk_fresh (h : Bytes → String) (cr : String) (s : ByteStream) (st1 : St)
    (hf : s.fails = false)
    (hd : st1.disk (cr ++ "/" ++ h s.chunks.flatten) = none) :
    (cache_publish h cr s st1).2.1.disk (cr ++ "/" ++ h s.chunks.flatten) =
      some s.chunks.flatten := by
  obtain ⟨h1, h2, h3, _⟩ := read_and_hash_ok h s st1 hf
  unfold cache_publish
  rcases hrw : read_and_hash h s st1 with ⟨res, st2, tr⟩
  rw [hrw] at h1 h2 h3
  simp only at h1 h2 h3
  subst h1
  simp only
  rw [h2, hd]
  simp only [Option.isSome_none, Bool.false_eq_true, if_false]
  simp only [if_pos rfl, h3]
  simp

/-- When a blob already existed at the blob path, the local disk is left
entirely unchanged (the temp file is discarded, the blob kept as-is). -/
theorem cache_publish_disk_dedup (h : Bytes → String) (cr : String) (s : ByteStream) (st1 : St)
    (c : Bytes) (hf : s.fails = false)
    (hd : st1.disk (cr ++ "/" ++ h s.chunks.flatten) = some c) :
    (cache_publish h cr s st1).2.1.disk = st1.disk := by
  obtain ⟨h1, h2, _⟩ := read_and_hash_ok h s st1 hf
  unfold cache_publish
  rcases hrw : read_and_hash h s st1 with ⟨res, st2, tr⟩
  rw [hrw] at h1 h2
  simp only at h1 h2
  subst h1
  simp only
  rw [h2, hd]
  simp only [Option.isSome_some, if_true]

/-- No path other than the blob path is written by the publish phase. -/
theorem cache_publish_disk_frame (h : Bytes → String) (cr : String) (s : ByteStream) (st1 : St)
    (p : String) (hf : s.fails = false)
    (hp : p ≠ cr ++ "/" ++ h s.chunks.flatten) :
    (cache_publish h cr s st1).2.1.disk p = st1.disk p := by
  obtain ⟨h1, h2, _⟩ := read_and_hash_ok h s st1 hf
  unfold cache_publish
  rcases hrw : read_and_hash h s st1 with ⟨res, st2, tr⟩
  rw [hrw] at h1 h2
  simp only at h1 h2
  subst h1
  simp only
  cases hq : (st2.disk (cr ++ "/" ++ h s.chunks.flatten)).isSome <;>
    simp only [Bool.false_eq_true, if_false, if_true] <;>
    simp only [if_neg hp, h2]

/-- The temp file created by the operation is removed again (whichever publish
branch runs), so the temp area is exactly as before. -/
theorem cache_publish_tmp (h : Bytes → String) (cr : String) (s : ByteStream) (st1 : St)
    (hf : s.fails = false) (ht : st1.tmp st1.tmpCounter = none) :
    (cache_publish h cr s st1).2.1.tmp = st1.tmp := by
  obtain ⟨h1, h2, h3, h4, _⟩ := read_and_hash_ok h s st1 hf
  unfold cache_publish
  rcases hrw : read_and_hash h s st1 with ⟨res, st2, tr⟩
  rw [hrw] at h1 h2 h3 h4
  simp only at h1 h2 h3 h4
  subst h1
  simp only
  cases hq : (st2.disk (cr ++ "/" ++ h s.chunks.flatten)).isSome <;>
    simp only [Bool.false_eq_true, if_false, if_true] <;>
    · funext n
      rcases eq_or_ne n st1.tmpCounter with rfl | hn
      · simp [ht]
      · simp only [if_neg hn]
        exact h4 n hn

/-- Counter bookkeeping of the publish phase: one temp file was created, one
hash pass ran, and the phase itself performs no download. -/
theorem cache_publish_counters (h : Bytes → String) (cr : String) (s : ByteStream) (st1 : St)
    (hf : s.fails = false) :
    (cache_publish h cr s st1).2.1.tmpCounter = st1.tmpCounter + 1 ∧
    (cache_publish h cr s st1).2.1.fsDownloads = st1.fsDownloads ∧
    (cache_publish h cr s st1).2.1.urlDownloads = st1.urlDownloads ∧
    (cache_publish h cr s st1).2.1.hashCount = st1.hashCount + 1 := by
  obtain ⟨h1, h2, h3, h4, h5, h6, h7, h8, h9⟩ := read_and_hash_ok h s st1 hf
  unfold cache_publish
  rcases hrw : read_and_hash h s st1 with ⟨res, st2, tr⟩
  rw [hrw] at h1 h2 h3 h4 h5 h6 h7 h8 h9
  simp only at h1 h2 h3 h4 h5 h6 h7 h8 h9
  subst h1
  simp only
  cases hq : (st2.disk (cr ++ "/" ++ h s.chunks.flatten)).isSome <;>
    simp only [Bool.false_eq_true, if_false, if_true] <;>
    exact ⟨h5, h6, h7, h8⟩

/-- Publication atomicity: in every intermediate on-disk state of the publish
phase, the blob path holds either what it held before the operation or the
complete bytes — never a partial file. -/
theorem cache_publish_trace (h : Bytes → String) (cr : String) (s : ByteStream) (st1 : St)
    (hf : s.fails = false) :
    ∀ x ∈ (cache_publish h cr s st1).2.2,
      x.disk (cr ++ "/" ++ h s.chunks.flatten) = st1.disk (cr ++ "/" ++ h s.chunks.flatten) ∨
      x.disk (cr ++ "/" ++ h s.chunks.flatten) = some s.chunks.flatten := by
  obtain ⟨h1, h2, h3, h4, h5, h6, h7, h8, h9⟩ := read_and_hash_ok h s st1 hf
  unfold cache_publish
  rcases hrw : read_and_hash h s st1 with ⟨res, st2, tr⟩
  rw [hrw] at h1 h2 h3 h4 h5 h6 h7 h8 h9
  simp only at h1 h2 h3 h4 h5 h6 h7 h8 h9
  subst h1
  simp only
  cases hq : (st2.disk (cr ++ "/" ++ h s.chunks.flatten)).isSome <;>
    simp only [Bool.false_eq_true, if_false, if_true] <;>
    · intro x hx
      simp only [List.mem_append, List.mem_singleton] at hx
      rcases hx with hx | rfl
      · left; rw [h9 x hx]
      · first
        | (left; exact h2 ▸ rfl)
        | (right
           simp only [if_pos rfl, h3]
           simp)

/-- Caching-enabled resolution of an openable, non-failing object returns the
content-hash blob path under the cache root. -/
theorem cached_resolve_res (env : Env) (cr r : String) (st : St) (s : ByteStream)
    (ho : cache_open env r = Except.ok s) (hf : s.fails = false) :
    (cached_resolve env cr r st).1 =
      Except.ok (some (cr ++ "/" ++ env.hash s.chunks.flatten)) := by
  unfold cached_resolve
  rw [ho]
  simp only
  cases hu : is_valid_url r <;>
    simp only [hu, Bool.false_eq_true, if_false, if_true] <;>
    exact cache_publish_res _ _ _ _ hf

/-- Fresh blob case of caching-enabled resolution. -/
theorem cached_resolve_disk_fresh (env : Env) (cr r : String) (st : St) (s : ByteStream)
    (ho : cache_open env r = Except.ok s) (hf : s.fails = false)
    (hd : st.disk (cr ++ "/" ++ env.hash s.chunks.flatten) = none) :
    (cached_resolve env cr r st).2.1.disk (cr ++ "/" ++ env.hash s.chunks.flatten) =
      some s.chunks.flatten := by
  unfold cached_resolve
  rw [ho]
  simp only
  cases hu : is_valid_url r <;>
    simp only [hu, Bool.false_eq_true, if_false, if_true] <;>
    exact cache_publish_disk_fresh _ _ _ _ hf hd

/-- Existing blob case of caching-enabled resolution: the whole local disk is
unchanged. -/
theorem cached_resolve_disk_dedup (env : Env) (cr r : String) (st : St) (s : ByteStream)
    (c : Bytes) (ho : cache_open env r = Except.ok s) (hf : s.fails = false)
    (hd : st.disk (cr ++ "/" ++ env.hash s.chunks.flatten) = some c) :
    (cached_resolve env cr r st).2.1.disk = st.disk := by
  unfold cached_resolve
  rw [ho]
  simp only
  cases hu : is_valid_url r <;>
    simp only [hu, Bool.false_eq_true, if_false, if_true] <;>
    exact cache_publish_disk_dedup _ _ _ _ c hf hd

/-- Caching-enabled resolution writes no local path other than the blob path. -/
theorem cached_resolve_disk_frame (env : Env) (cr r : String) (st : St) (s : ByteStream)
    (p : String) (ho : cache_open env r = Except.ok s) (hf : s.fails = false)
    (hp : p ≠ cr ++ "/" ++ env.hash s.chunks.flatten) :
    (cached_resolve env cr r st).2.1.disk p = st.disk p := by
  unfold cached_resolve
  rw [ho]
  simp only
  cases hu : is_valid_url r <;>
    simp only [hu, Bool.false_eq_true, if_false, if_true] <;>
    exact cache_publish_disk_frame _ _ _ _ p hf hp

/-- Caching-enabled resolution leaves the temp area as it found it. -/
theorem cached_resolve_tmp (env : Env) (cr r : String) (st : St) (s : ByteStream)
    (ho : cache_open env r = Except.ok s) (hf : s.fails = false)
    (ht : st.tmp st.tmpCounter = none) :
    (cached_resolve env cr r st).2.1.tmp = st.tmp := by
  unfold cached_resolve
  rw [ho]
  simp only
  cases hu : is_valid_url r <;>
    simp only [hu, Bool.false_eq_true, if_false, if_true] <;>
    exact cache_publish_tmp _ _ _ _ hf ht

/-- Transfer accounting of caching-enabled resolution: every call performs one
full download (on the URL or on the filesystem side, per `_is_valid_url`) and
one hashing pass. -/
theorem cached_resolve_counts (env : Env) (cr r : String) (st : St) (s : ByteStream)
    (ho : cache_open env r = Except.ok s) (hf : s.fails = false) :
    (cached_resolve env cr r st).2.1.hashCount = st.hashCount + 1 ∧
    (cached_resolve env cr r st).2.1.tmpCounter = st.tmpCounter + 1 ∧
    (cached_resolve env cr r st).2.1.fsDownloads =
      st.fsDownloads + (if is_valid_url r then 0 else 1) ∧
    (cached_resolve env cr r st).2.1.urlDownloads =
      st.urlDownloads + (if is_valid_url r then 1 else 0) := by
  unfold cached_resolve
  rw [ho]
  simp only
  cases hu : is_valid_url r <;>
    simp only [hu, Bool.false_eq_true, if_false, if_true]
  · obtain ⟨c1, c2, c3, c4⟩ := cache_publish_counters env.hash cr s
      { st with fsDownloads := st.fsDownloads + 1 } hf
    exact ⟨c4, c1, c2, c3⟩
  · obtain ⟨c1, c2, c3, c4⟩ := cache_publish_counters env.hash cr s
      { st with urlDownloads := st.urlDownloads + 1 } hf
    exact ⟨c4, c1, c2, c3⟩

/-- Atomic publication along the trace of a caching-enabled resolution. -/
theorem cached_resolve_trace (env : Env) (cr r : String) (st : St) (s : ByteStream)
    (ho : cache_open env r = Except.ok s) (hf : s.fails = false) :
    ∀ x ∈ (cached_resolve env cr r st).2.2,
      x.disk (cr ++ "/" ++ env.hash s.chunks.flatten) =
        st.disk (cr ++ "/" ++ env.hash s.chunks.flatten) ∨
      x.disk (cr ++ "/" ++ env.hash s.chunks.flatten) = some s.chunks.flatten := by
  unfold cached_resolve
  rw [ho]
  simp only
  cases hu : is_valid_url r <;>
    simp only [hu, Bool.false_eq_true, if_false, if_true] <;>
    exact cache_publish_trace _ _ _ _ hf

/-- With a non-empty reference and a cache root, `get_from_cache` is exactly
the caching-enabled path. -/
theorem get_from_cache_cached (env : Env) (cr r : String) (req : Bool)
    (tgt? : Option String) (st : St) (hr : r ≠ "") :
    get_from_cache env (some cr) r req tgt? st = cached_resolve env cr r st := by
  unfold get_from_cache
  simp [hr]

/-- With a non-empty reference and no cache root but a fallback target,
`get_from_cache` is exactly the direct-fetch path. -/
theorem get_from_cache_nocache (env : Env) (r tgt : String) (req : Bool) (st : St)
    (hr : r ≠ "") :
    get_from_cache env none r req (some tgt) st = no_cache_resolve env r tgt st := by
  unfold get_from_cache
  simp [hr]

/-! ## Claim C1 -/

/-- C1: the claim says path resolution in the root jail fails for every path
whose normalized absolute form is not a descendant of the configured root,
including sibling directories sharing a string prefix with the root, the
check being a directory-boundary check.  The code refutes it:
`_path_is_in_root` is a plain `str.startswith` after `abspath`, so with root
`/data` the reference `../data-other/x` joins to `/data/../data-other/x`,
normalizes to `/data-other/x` — not a descendant of `/data` — and is still
accepted (`_join` succeeds instead of raising `FileNotFoundError`). -/
theorem C1_sibling_prefix_escapes_jail :
    strict_join "/" "/data" "../data-other/x" = Except.ok "/data/../data-other/x" ∧
    os_path_abspath "/" "/data/../data-other/x" = "/data-other/x" ∧
    spec_is_descendant "/data" "/data-other/x" = false ∧
    path_is_in_root "/" "/data" "/data/../data-other/x" = true := by
  refine ⟨rfl, by decide, by decide, by decide⟩

/-! ## Claim C2 -/

/-- C2: the claim says two consecutive cache resolutions of an unchanged
object (same revision token) transfer content exactly once and hash it once.
The code refutes it: `get_from_cache` has no pointer record and never consults
a token — both calls return the same blob path, but the second call downloads
and hashes again (`fsDownloads = 2`, `hashCount = 2` across the two calls). -/
theorem C2_second_resolve_downloads_again :
    (get_from_cache envUnchanged (some "/c") "r" false none emptySt).1 =
      Except.ok (some "/c/H") ∧
    (get_from_cache envUnchanged (some "/c") "r" false none
      (get_from_cache envUnchanged (some "/c") "r" false none emptySt).2.1).1 =
      Except.ok (some "/c/H") ∧
    (get_from_cache envUnchanged (some "/c") "r" false none
      (get_from_cache envUnchanged (some "/c") "r" false none emptySt).2.1).2.1.fsDownloads = 2 ∧
    (get_from_cache envUnchanged (some "/c") "r" false none
      (get_from_cache envUnchanged (some "/c") "r" false none emptySt).2.1).2.1.hashCount = 2 := by
  refine ⟨rfl, rfl, rfl, rfl⟩

/-! ## Claim C3 -/

/-- C3: the claim says that when the backend reports no revision token,
resolution bypasses the cache, returns a fresh temporary location, and leaves
the cache directory free of new entries.  The code refutes it: it never
performs the metadata call at all (no definition reads `hasToken`); with
caching enabled it downloads, hashes, writes a content blob into the cache
directory, and returns that cache path. -/
theorem C3_missing_token_still_writes_cache :
    envNoToken.hasToken.contains "r" = false ∧
    (get_from_cache envNoToken (some "/c") "r" false none emptySt).1 =
      Except.ok (some "/c/H") ∧
    (get_from_cache envNoToken (some "/c") "r" false none emptySt).2.1.disk "/c/H" =
      some [1, 2] := by
  refine ⟨rfl, rfl, rfl⟩

/-! ## Claim C6 -/

/-- C6: the claim says a reference the backend reports as a directory fails
with a dedicated `NotAFileError`.  The code refutes the error contract: it has
no directory check at all — `fs.open(reference, "rb")` simply raises the
backend's own `IsADirectoryError` (nothing is stored and state is unchanged,
but no `NotAFileError`/`OasisException` is involved, which also makes the
repository's own `test_get_from_cache_directory_raises_error` fail). -/
theorem C6_directory_raises_backend_open_error :
    get_from_cache envDirRef (some "/c") "d" false none emptySt =
      (Except.error (PyErr.isADirectory "d"), emptySt, []) := by
  rfl

/-! ## Claim C9 -/

/-- C9: the claim says every temporary file is removed by the end of the
operation even when the stream errors mid-read.  The code refutes it:
`_read_and_hash` uses `NamedTemporaryFile(delete=False)` and has no cleanup on
the error path, so a mid-read failure propagates out of `get_from_cache`
leaving the partially written temp file on disk (temp slot 0 still holds the
bytes read so far); the cache directory itself is left untouched. -/
theorem C9_mid_read_failure_leaks_temp_file :
    (get_from_cache envMidReadFail (some "/c") "r" false none emptySt).1 =
      Except.error PyErr.ioError ∧
    (get_from_cache envMidReadFail (some "/c") "r" false none emptySt).2.1.tmp 0 =
      some [1, 2, 3] ∧
    (∀ p, (get_from_cache envMidReadFail (some "/c") "r" false none emptySt).2.1.disk p =
      emptySt.disk p) := by
  refine ⟨rfl, rfl, fun p => rfl⟩

/-! ## Claim C4 -/

/-- C4: content dedup and atomic publication.  Any two references whose
fetched bytes are identical resolve to the same content-hash blob path; a
resolution that finds the blob already present discards its temporary file
and leaves the whole local disk — in particular the existing blob's bytes —
unchanged; a resolution that finds no blob publishes the complete bytes at
the blob path, and no intermediate on-disk state of the operation ever shows
a partial file at that final name (the temp file is streamed elsewhere and
promoted by one atomic rename). -/
theorem C4_dedup_and_atomic_publication
    (env : Env) (cr r1 r2 : String) (st0 : St) (s1 s2 : ByteStream) (b : Bytes)
    (hr1 : r1 ≠ "") (hr2 : r2 ≠ "")
    (ho1 : cache_open env r1 = Except.ok s1) (ho2 : cache_open env r2 = Except.ok s2)
    (hf1 : s1.fails = false) (hf2 : s2.fails = false)
    (hb1 : s1.chunks.flatten = b) (hb2 : s2.chunks.flatten = b) :
    (get_from_cache env (some cr) r1 false none st0).1 =
      Except.ok (some (cr ++ "/" ++ env.hash b)) ∧
    (get_from_cache env (some cr) r2 false none st0).1 =
      Except.ok (some (cr ++ "/" ++ env.hash b)) ∧
    (∀ st : St, ∀ c : Bytes, st.disk (cr ++ "/" ++ env.hash b) = some c →
      st.tmp st.tmpCounter = none →
      (get_from_cache env (some cr) r2 false none st).2.1.disk = st.disk ∧
      (get_from_cache env (some cr) r2 false none st).2.1.tmp = st.tmp) ∧
    (st0.disk (cr ++ "/" ++ env.hash b) = none →
      (get_from_cache env (some cr) r1 false none st0).2.1.disk (cr ++ "/" ++ env.hash b) =
        some b ∧
      ∀ x ∈ (get_from_cache env (some cr) r1 false none st0).2.2,
        x.disk (cr ++ "/" ++ env.hash b) = none ∨
        x.disk (cr ++ "/" ++ env.hash b) = some b) := by
  subst hb1
  refine ⟨?_, ?_, ?_, ?_⟩
  · rw [get_from_cache_cached env cr r1 false none st0 hr1]
    exact cached_resolve_res env cr r1 st0 s1 ho1 hf1
  · rw [get_from_cache_cached env cr r2 false none st0 hr2]
    have h := cached_resolve_res env cr r2 st0 s2 ho2 hf2
    rw [hb2] at h
    exact h
  · intro st c hc ht
    rw [get_from_cache_cached env cr r2 false none st hr2]
    constructor
    · have h := cached_resolve_disk_dedup env cr r2 st s2 c ho2 hf2 (by rw [hb2]; exact hc)
      exact h
    · exact cached_resolve_tmp env cr r2 st s2 ho2 hf2 ht
  · intro hd
    rw [get_from_cache_cached env cr r1 false none st0 hr1]
    constructor
    · exact cached_resolve_disk_fresh env cr r1 st0 s1 ho1 hf1 hd
    · intro x hx
      have h := cached_resolve_trace env cr r1 st0 s1 ho1 hf1 x hx
      rw [hd] at h
      exact h

/-- Witness for C4 at a concrete input: both distinct references resolve to
the identical blob path `/c/H`. -/
theorem C4_dedup_and_atomic_publication_witness :
    cache_open envDedup "a" = Except.ok ⟨[[1, 2]], false⟩ ∧
    cache_open envDedup "b" = Except.ok ⟨[[1], [2]], false⟩ ∧
    (get_from_cache envDedup (some "/c") "a" false none emptySt).1 =
      Except.ok (some ("/c" ++ "/" ++ envDedup.hash [1, 2])) ∧
    (get_from_cache envDedup (some "/c") "b" false none emptySt).1 =
      Except.ok (some ("/c" ++ "/" ++ envDedup.hash [1, 2])) := by
  have h := C4_dedup_and_atomic_publication envDedup "/c" "a" "b" emptySt
    ⟨[[1, 2]], false⟩ ⟨[[1], [2]], false⟩ [1, 2]
    (by decide) (by decide) rfl rfl rfl rfl rfl rfl
  exact ⟨rfl, rfl, h.1, h.2.1⟩

/-! ## Claim C5 -/

/-- C5: with the cache disabled, `get_from_cache` on a non-empty reference
fails with the configuration error when no fallback target is given; with a
fallback target it fetches the whole object straight to the target (by
anonymous HTTP GET for a valid http(s) URL, else through the jailed
filesystem), returns the target, and creates nothing else: no other local
path is written, the temp area, temp counter and hash counter are untouched
(no pointer record, no content blob). -/
theorem C5_cache_disabled (env : Env) (r tgt : String) (req : Bool) (st : St)
    (hr : r ≠ "") :
    (get_from_cache env none r req none st = (Except.error PyErr.configError, st, [])) ∧
    (∀ s : ByteStream, is_valid_url r = true → env.urlFiles.lookup r = some s →
      s.fails = false →
      (get_from_cache env none r req (some tgt) st).1 = Except.ok (some tgt) ∧
      (get_from_cache env none r req (some tgt) st).2.1.disk tgt = some s.chunks.flatten ∧
      (∀ p, p ≠ tgt → (get_from_cache env none r req (some tgt) st).2.1.disk p = st.disk p) ∧
      (get_from_cache env none r req (some tgt) st).2.1.tmp = st.tmp ∧
      (get_from_cache env none r req (some tgt) st).2.1.tmpCounter = st.tmpCounter ∧
      (get_from_cache env none r req (some tgt) st).2.1.hashCount = st.hashCount ∧
      (get_from_cache env none r req (some tgt) st).2.1.fsDownloads = st.fsDownloads ∧
      (get_from_cache env none r req (some tgt) st).2.1.urlDownloads = st.urlDownloads + 1) ∧
    (∀ s : ByteStream, is_valid_url r = false → env.fsFiles.lookup r = some s →
      s.fails = false →
      (get_from_cache env none r req (some tgt) st).1 = Except.ok (some tgt) ∧
      (get_from_cache env none r req (some tgt) st).2.1.disk tgt = some s.chunks.flatten ∧
      (∀ p, p ≠ tgt → (get_from_cache env none r req (some tgt) st).2.1.disk p = st.disk p) ∧
      (get_from_cache env none r req (some tgt) st).2.1.tmp = st.tmp ∧
      (get_from_cache env none r req (some tgt) st).2.1.tmpCounter = st.tmpCounter ∧
      (get_from_cache env none r req (some tgt) st).2.1.hashCount = st.hashCount ∧
      (get_from_cache env none r req (some tgt) st).2.1.fsDownloads = st.fsDownloads + 1 ∧
      (get_from_cache env none r req (some tgt) st).2.1.urlDownloads = st.urlDownloads) := by
  refine ⟨?_, ?_, ?_⟩
  · unfold get_from_cache
    simp [hr]
  · intro s hu hl hf
    rw [get_from_cache_nocache env r tgt req st hr]
    unfold no_cache_resolve url_open
    rw [hu, hl]
    simp only [if_true, hf, Bool.false_eq_true, if_false]
    refine ⟨?_, ?_, ?_, ?_, ?_, ?_, ?_, ?_⟩ <;>
      first
        | trivial
        | (intro p hp; simp [hp])
  · intro s hu hl hf
    rw [get_from_cache_nocache env r tgt req st hr]
    unfold no_cache_resolve fs_get
    rw [hu, hl]
    simp only [Bool.false_eq_true, if_false, hf]
    refine ⟨?_, ?_, ?_, ?_, ?_, ?_, ?_, ?_⟩ <;>
      first
        | trivial
        | (intro p hp; simp [hp])

/-- Witness for C5 at concrete inputs: missing fallback target errors; URL and
filesystem references are fetched directly to the given target. -/
theorem C5_cache_disabled_witness :
    ("k" : String) ≠ "" ∧
    (get_from_cache envNoCacheRoot none "k" true none emptySt).1 =
      Except.error PyErr.configError ∧
    (get_from_cache envNoCacheRoot none "http://h/f.txt" false (some "/t/u") emptySt).1 =
      Except.ok (some "/t/u") ∧
    (get_from_cache envNoCacheRoot none "k" false (some "/t/f") emptySt).1 =
      Except.ok (some "/t/f") := by
  have h1 := (C5_cache_disabled envNoCacheRoot "k" "/t/f" true emptySt (by decide)).1
  have h2 := ((C5_cache_disabled envNoCacheRoot "http://h/f.txt" "/t/u" false emptySt
    (by decide)).2.1 ⟨[[9]], false⟩ (by decide) rfl rfl).1
  have h3 := ((C5_cache_disabled envNoCacheRoot "k" "/t/f" false emptySt
    (by decide)).2.2 ⟨[[5]], false⟩ (by decide) rfl rfl).1
  exact ⟨by decide, by rw [h1], h2, h3⟩

/-! ## Claim C7 -/

/-- C7 counterexample: the claim says that when `output_path/subdir` is an
existing directory, the filename derived from the reference is appended to
that target.  The code appends it to `output_path` instead: with
`output_path = /out`, `subdir = sub` (where `/out/sub` exists) and reference
`a.txt`, `get` returns `/out/a.txt`, not the claimed `/out/sub/a.txt`. -/
theorem C7_counterexample_subdir_dropped :
    (storage_get envSubdirTarget "/" (some "/c") "a.txt" "/out" "sub" false emptySt).1 =
      Except.ok (some "/out/a.txt") ∧
    os_path_join (os_path_abspath "/" (os_path_join "/out" "sub")) "a.txt" =
      "/out/sub/a.txt" ∧
    ("/out/a.txt" : String) ≠ "/out/sub/a.txt" := by
  refine ⟨rfl, by decide, by decide⟩

/-- C7 (amended): for every call of `get` with a non-empty reference, the
target is `output_path/subdir` unless that path is an existing directory, in
which case the filename derived from the reference (the URL's path basename
for a URL) is joined onto `output_path` — not onto the `output_path/subdir`
target; the target-selection if-expression below is exactly the source's.
Whenever resolution succeeds: with a cache root, the resolved blob path
differs from the target and its bytes — freshly fetched, or the pre-existing
blob's bytes on a dedup hit — are copied to the target, the cache blob itself
keeping its bytes and every other path its prior contents; with the cache
disabled, the object is fetched directly to the target and no copy is needed.
In all cases the target path is returned and the temp area is left as found. -/
theorem C7_amended_get_contract
    (env : Env) (cwd cr r op sd fn tgt : String) (st0 : St) (s : ByteStream) (b : Bytes)
    (hr : r ≠ "")
    (ho : cache_open env r = Except.ok s) (hf : s.fails = false)
    (hb : s.chunks.flatten = b)
    (hfn : fn = (if is_valid_url r then os_path_basename (urlparse r).path else r))
    (htgt : tgt =
      (if env.localDirs.contains
          (os_path_abspath cwd (if sd = "" then op else os_path_join op sd))
       then os_path_join op fn
       else os_path_abspath cwd (if sd = "" then op else os_path_join op sd)))
    (hne : cr ++ "/" ++ env.hash b ≠ tgt)
    (htmp : st0.tmp st0.tmpCounter = none) :
    (st0.disk (cr ++ "/" ++ env.hash b) = none →
      (storage_get env cwd (some cr) r op sd false st0).1 = Except.ok (some tgt) ∧
      (storage_get env cwd (some cr) r op sd false st0).2.disk tgt = some b ∧
      (storage_get env cwd (some cr) r op sd false st0).2.disk (cr ++ "/" ++ env.hash b) =
        some b ∧
      (∀ p, p ≠ tgt → p ≠ cr ++ "/" ++ env.hash b →
        (storage_get env cwd (some cr) r op sd false st0).2.disk p = st0.disk p) ∧
      (storage_get env cwd (some cr) r op sd false st0).2.tmp = st0.tmp) ∧
    (∀ c : Bytes, st0.disk (cr ++ "/" ++ env.hash b) = some c →
      (storage_get env cwd (some cr) r op sd false st0).1 = Except.ok (some tgt) ∧
      (storage_get env cwd (some cr) r op sd false st0).2.disk tgt = some c ∧
      (storage_get env cwd (some cr) r op sd false st0).2.disk (cr ++ "/" ++ env.hash b) =
        some c ∧
      (∀ p, p ≠ tgt →
        (storage_get env cwd (some cr) r op sd false st0).2.disk p = st0.disk p) ∧
      (storage_get env cwd (some cr) r op sd false st0).2.tmp = st0.tmp) ∧
    (∀ s2 : ByteStream, is_valid_url r = true → env.urlFiles.lookup r = some s2 →
      s2.fails = false →
      (storage_get env cwd none r op sd false st0).1 = Except.ok (some tgt) ∧
      (storage_get env cwd none r op sd false st0).2.disk tgt = some s2.chunks.flatten ∧
      (∀ p, p ≠ tgt →
        (storage_get env cwd none r op sd false st0).2.disk p = st0.disk p) ∧
      (storage_get env cwd none r op sd false st0).2.tmp = st0.tmp) ∧
    (∀ s2 : ByteStream, is_valid_url r = false → env.fsFiles.lookup r = some s2 →
      s2.fails = false →
      (storage_get env cwd none r op sd false st0).1 = Except.ok (some tgt) ∧
      (storage_get env cwd none r op sd false st0).2.disk tgt = some s2.chunks.flatten ∧
      (∀ p, p ≠ tgt →
        (storage_get env cwd none r op sd false st0).2.disk p = st0.disk p) ∧
      (storage_get env cwd none r op sd false st0).2.tmp = st0.tmp) := by
  subst hb hfn htgt
  refine ⟨?_, ?_, ?_, ?_⟩
  · intro hfresh
    have hres := cached_resolve_res env cr r st0 s ho hf
    have hdisk := cached_resolve_disk_fresh env cr r st0 s ho hf hfresh
    have hframe : ∀ p, p ≠ cr ++ "/" ++ env.hash s.chunks.flatten →
        (cached_resolve env cr r st0).2.1.disk p = st0.disk p :=
      fun p hp => cached_resolve_disk_frame env cr r st0 s p ho hf hp
    have htm := cached_resolve_tmp env cr r st0 s ho hf htmp
    unfold storage_get
    simp only [if_neg hr]
    rw [get_from_cache_cached env cr r false _ st0 hr]
    rcases hout : cached_resolve env cr r st0 with ⟨res, st1, tr⟩
    rw [hout] at hres hdisk htm hframe
    simp only at hres hdisk htm hframe
    subst hres
    simp only
    rw [if_neg hne, hdisk]
    simp only
    refine ⟨?_, ?_, ?_, ?_, ?_⟩
    · trivial
    · simp
    · simp only [if_neg hne]
      exact hdisk
    · intro p hp1 hp2
      simp only [if_neg hp1]
      exact hframe p hp2
    · exact htm
  · intro c hc
    have hres := cached_resolve_res env cr r st0 s ho hf
    have hdisk := cached_resolve_disk_dedup env cr r st0 s c ho hf hc
    have htm := cached_resolve_tmp env cr r st0 s ho hf htmp
    unfold storage_get
    simp only [if_neg hr]
    rw [get_from_cache_cached env cr r false _ st0 hr]
    rcases hout : cached_resolve env cr r st0 with ⟨res, st1, tr⟩
    rw [hout] at hres hdisk htm
    simp only at hres hdisk htm
    subst hres
    simp only
    have hcp : st1.disk (cr ++ "/" ++ env.hash s.chunks.flatten) = some c := by
      rw [hdisk]
      exact hc
    rw [if_neg hne, hcp]
    simp only
    refine ⟨?_, ?_, ?_, ?_, ?_⟩
    · trivial
    · simp
    · simp only [if_neg hne]
      exact hcp
    · intro p hp
      simp only [if_neg hp]
      rw [hdisk]
    · exact htm
  · intro s2 hu hl hf2
    unfold storage_get
    simp only [if_neg hr]
    set T := (if env.localDirs.contains
        (os_path_abspath cwd (if sd = "" then op else os_path_join op sd)) = true
      then os_path_join op
        (if is_valid_url r = true then os_path_basename (urlparse r).path else r)
      else os_path_abspath cwd (if sd = "" then op else os_path_join op sd)) with hT
    rw [get_from_cache_nocache env r T false st0 hr]
    unfold no_cache_resolve url_open
    rw [hu, hl]
    simp only [if_true, hf2, Bool.false_eq_true, if_false]
    refine ⟨?_, ?_, ?_, ?_⟩ <;>
      first
        | trivial
        | (intro p hp; simp only [if_neg hp])
  · intro s2 hu hl hf2
    unfold storage_get
    simp only [if_neg hr]
    set T := (if env.localDirs.contains
        (os_path_abspath cwd (if sd = "" then op else os_path_join op sd)) = true
      then os_path_join op
        (if is_valid_url r = true then os_path_basename (urlparse r).path else r)
      else os_path_abspath cwd (if sd = "" then op else os_path_join op sd)) with hT
    rw [get_from_cache_nocache env r T false st0 hr]
    unfold no_cache_resolve fs_get
    rw [hu, hl]
    simp only [Bool.false_eq_true, if_false, hf2, eq_self_iff_true, if_true]
    refine ⟨?_, ?_, ?_, ?_⟩ <;>
      first
        | trivial
        | (intro p hp; simp only [if_neg hp])

/-- Witness for C7 (amended) at concrete inputs, exercising both target
branches: with subdir `sub` (where `/out/sub` exists) the filename is joined
onto `/out`, and with subdir `nodir` (no such directory) the target is
`/out/nodir` itself; both times the fetched bytes land at the returned
target and the cache blob keeps them too. -/
theorem C7_amended_get_contract_witness :
    cache_open envSubdirTarget "a.txt" = Except.ok ⟨[[7]], false⟩ ∧
    envSubdirTarget.localDirs.contains
      (os_path_abspath "/" (os_path_join "/out" "sub")) = true ∧
    (storage_get envSubdirTarget "/" (some "/c") "a.txt" "/out" "sub" false emptySt).1 =
      Except.ok (some "/out/a.txt") ∧
    (storage_get envSubdirTarget "/" (some "/c") "a.txt" "/out" "sub" false emptySt).2.disk
      "/out/a.txt" = some [7] ∧
    (storage_get envSubdirTarget "/" (some "/c") "a.txt" "/out" "sub" false emptySt).2.disk
      ("/c" ++ "/" ++ envSubdirTarget.hash [7]) = some [7] ∧
    envSubdirTarget.localDirs.contains
      (os_path_abspath "/" (os_path_join "/out" "nodir")) = false ∧
    (storage_get envSubdirTarget "/" (some "/c") "a.txt" "/out" "nodir" false emptySt).1 =
      Except.ok (some "/out/nodir") ∧
    (storage_get envSubdirTarget "/" (some "/c") "a.txt" "/out" "nodir" false
      emptySt).2.disk "/out/nodir" = some [7] := by
  have h1 := (C7_amended_get_contract envSubdirTarget "/" "/c" "a.txt" "/out" "sub"
    "a.txt" "/out/a.txt" emptySt ⟨[[7]], false⟩ [7]
    (by decide) rfl rfl rfl rfl (by decide) (by decide) rfl).1 rfl
  have h2 := (C7_amended_get_contract envSubdirTarget "/" "/c" "a.txt" "/out" "nodir"
    "a.txt" "/out/nodir" emptySt ⟨[[7]], false⟩ [7]
    (by decide) rfl rfl rfl rfl (by decide) (by decide) rfl).1 rfl
  exact ⟨rfl, by decide, h1.1, h1.2.1, h1.2.2.1, by decide, h2.1, h2.2.1⟩

/-! ## Claim C8 -/

/-- C8 counterexample: the claim says `delete_dir` refuses whenever the
reference resolves to exactly the configured root.  The code only compares
`Path(reference).resolve()` — the reference as an OS path against the process
working directory — with the OS root `"/"`: with configured root `/data` and
working directory `/work`, the reference `"."` resolves inside the jail to
exactly `/data`, yet `delete_dir` proceeds and deletes the entire root's
contents. -/
theorem C8_counterexample_dot_deletes_configured_root :
    delete_dir "/work" "/data" ⟨["/data/f"], ["/data"]⟩ "." = (⟨[], []⟩, true) ∧
    os_path_abspath "/work" (dirfs_join "/data" ".") = "/data" := by
  refine ⟨by decide, by decide⟩

/-- C8 (amended): `delete_file` and `delete_dir` operate only on confirmed
files and confirmed directories respectively — on any other target they
perform no deletion and raise nothing (the operations are total and return
the state unchanged); `delete_file` removes exactly the resolved file;
`delete_dir` additionally refuses only when the reference string, resolved as
an OS path against the process working directory, equals the filesystem root
`"/"` (a reference resolving inside the jail to the configured root is not
refused); when it does delete, every removed entry lies at or below the
resolved target. -/
theorem C8_amended_delete_contract (cwd root : String) (r : RemoteSt) (ref : String) :
    (strict_isfile cwd root r ref = false → delete_file cwd root r ref = (r, false)) ∧
    (strict_isfile cwd root r ref = true →
      (delete_file cwd root r ref).1.files =
        r.files.erase (os_path_abspath cwd (dirfs_join root ref)) ∧
      (delete_file cwd root r ref).1.dirs = r.dirs ∧
      (delete_file cwd root r ref).2 = true) ∧
    (strict_isdir cwd root r ref = false → delete_dir cwd root r ref = (r, false)) ∧
    (strict_isdir cwd root r ref = true → os_path_abspath cwd ref = "/" →
      delete_dir cwd root r ref = (r, false)) ∧
    (strict_isdir cwd root r ref = true → os_path_abspath cwd ref ≠ "/" →
      (delete_dir cwd root r ref).2 = true ∧
      (∀ f ∈ r.files, f ∉ (delete_dir cwd root r ref).1.files →
        (f = os_path_abspath cwd (dirfs_join root ref) ∨
         str_startswith f (os_path_abspath cwd (dirfs_join root ref) ++ "/") = true)) ∧
      (∀ f ∈ r.files, f ≠ os_path_abspath cwd (dirfs_join root ref) →
        str_startswith f (os_path_abspath cwd (dirfs_join root ref) ++ "/") = false →
        f ∈ (delete_dir cwd root r ref).1.files)) := by
  refine ⟨?_, ?_, ?_, ?_, ?_⟩
  · intro h
    unfold delete_file
    rw [h]
    simp
  · intro h
    unfold delete_file
    rw [h]
    simp
  · intro h
    unfold delete_dir
    rw [h]
    simp
  · intro h hroot
    unfold delete_dir
    rw [h, hroot]
    simp
  · intro h hroot
    unfold delete_dir
    rw [h]
    simp only [if_true, if_neg hroot]
    refine ⟨trivial, ?_, ?_⟩
    · intro f hf hnot
      by_contra hcon
      push_neg at hcon
      apply hnot
      simp only [List.mem_filter]
      refine ⟨hf, ?_⟩
      have hsw := Bool.eq_false_iff.mpr hcon.2
      simp [hcon.1, hsw]
    · intro f hf hne hpre
      simp only [List.mem_filter]
      refine ⟨hf, ?_⟩
      simp [hne, hpre]

/-- Witness for C8 (amended) at concrete inputs: a non-directory target is a
no-op for `delete_dir`, and a confirmed directory below the root is deleted. -/
theorem C8_amended_delete_contract_witness :
    strict_isdir "/work" "/data" ⟨["/data/d/f"], ["/data/d"]⟩ "nope" = false ∧
    delete_dir "/work" "/data" ⟨["/data/d/f"], ["/data/d"]⟩ "nope" =
      (⟨["/data/d/f"], ["/data/d"]⟩, false) ∧
    strict_isdir "/work" "/data" ⟨["/data/d/f"], ["/data/d"]⟩ "d" = true ∧
    (delete_dir "/work" "/data" ⟨["/data/d/f"], ["/data/d"]⟩ "d").2 = true := by
  have h1 := (C8_amended_delete_contract "/work" "/data" ⟨["/data/d/f"], ["/data/d"]⟩
    "nope").2.2.1 (by decide)
  have h2 := ((C8_amended_delete_contract "/work" "/data" ⟨["/data/d/f"], ["/data/d"]⟩
    "d").2.2.2.2 (by decide) (by decide)).1
  exact ⟨by decide, h1, by decide, h2⟩

/-- `_read_and_hash` never performs a filesystem transfer itself. -/
theorem read_and_hash_fsDownloads_any (h : Bytes → String) (s : ByteStream) (st : St) :
    (read_and_hash h s st).2.1.fsDownloads = st.fsDownloads := by
  unfold read_and_hash
  cases hfl : s.fails <;> simp [write_chunks_fst_fsDownloads]

/-- `_read_and_hash` never performs an HTTP transfer itself. -/
theorem read_and_hash_urlDownloads_any (h : Bytes → String) (s : ByteStream) (st : St) :
    (read_and_hash h s st).2.1.urlDownloads = st.urlDownloads := by
  unfold read_and_hash
  cases hfl : s.fails <;> simp [write_chunks_fst_urlDownloads]

/-- The publish phase performs no filesystem transfer, also on failure. -/
theorem cache_publish_fsDownloads_any (h : Bytes → String) (cr : String) (s : ByteStream)
    (st1 : St) :
    (cache_publish h cr s st1).2.1.fsDownloads = st1.fsDownloads := by
  unfold cache_publish
  rcases hrw : read_and_hash h s st1 with ⟨res, st2, tr⟩
  have hst2 : st2.fsDownloads = st1.fsDownloads := by
    have hh := read_and_hash_fsDownloads_any h s st1
    rw [hrw] at hh
    exact hh
  cases res with
  | error e => simpa using hst2
  | ok hi =>
    simp only
    cases hq : (st2.disk (cr ++ "/" ++ hi.1)).isSome <;> simp [hq, hst2]

/-- The publish phase performs no HTTP transfer, also on failure. -/
theorem cache_publish_urlDownloads_any (h : Bytes → String) (cr : String) (s : ByteStream)
    (st1 : St) :
    (cache_publish h cr s st1).2.1.urlDownloads = st1.urlDownloads := by
  unfold cache_publish
  rcases hrw : read_and_hash h s st1 with ⟨res, st2, tr⟩
  have hst2 : st2.urlDownloads = st1.urlDownloads := by
    have hh := read_and_hash_urlDownloads_any h s st1
    rw [hrw] at hh
    exact hh
  cases res with
  | error e => simpa using hst2
  | ok hi =>
    simp only
    cases hq : (st2.disk (cr ++ "/" ++ hi.1)).isSome <;> simp [hq, hst2]

/-! ## Claim C10 -/

/-- C10 counterexample: the claim says every non-http(s) reference — including
empty strings — is routed through the jailed filesystem as a path.  The code
refutes the empty-string part: an empty reference is rejected up front
(`None`, or `MissingInputsException` when required) and no filesystem access
happens at all — the state comes back identical even though the backend has an
object under the empty reference. -/
theorem C10_counterexample_empty_reference_not_routed :
    get_from_cache envEmptyRef (some "/c") "" false none emptySt =
      (Except.ok none, emptySt, []) ∧
    (get_from_cache envEmptyRef (some "/c") "" true none emptySt).1 =
      Except.error (PyErr.missingInputs "") := by
  refine ⟨rfl, rfl⟩

/-- C10 (amended): a reference is treated as an anonymous HTTP download iff
`urlparse` gives it a scheme `http` or `https` (after lowercasing) and a
non-empty netloc; every other non-empty reference is routed through the
jailed filesystem only (no HTTP transfer ever happens for it, and no
filesystem transfer ever happens for a valid URL), while an empty reference
is rejected before any routing, leaving the state untouched. -/
theorem C10_amended_url_routing (env : Env) (cacheRoot : Option String) (r : String)
    (req : Bool) (tgt? : Option String) (st : St) :
    (r ≠ "" → (is_valid_url r = true ↔
      (((urlparse r).scheme = "http" ∨ (urlparse r).scheme = "https") ∧
       (urlparse r).netloc ≠ ""))) ∧
    (is_valid_url r = false →
      (get_from_cache env cacheRoot r req tgt? st).2.1.urlDownloads = st.urlDownloads) ∧
    (is_valid_url r = true →
      (get_from_cache env cacheRoot r req tgt? st).2.1.fsDownloads = st.fsDownloads) ∧
    (r = "" → (get_from_cache env cacheRoot r req tgt? st).2.1 = st) := by
  refine ⟨?_, ?_, ?_, ?_⟩
  · intro hr
    unfold is_valid_url
    rw [if_neg hr]
    constructor
    · intro h
      simp only [Bool.and_eq_true, Bool.or_eq_true, Bool.not_eq_true',
        decide_eq_true_eq, decide_eq_false_iff_not] at h
      exact ⟨h.2, h.1.2⟩
    · rintro ⟨hs, hn⟩
      have hsne : ¬((urlparse r).scheme = "") := by
        rcases hs with h | h <;> simp [h]
      simp only [Bool.and_eq_true, Bool.or_eq_true, Bool.not_eq_true',
        decide_eq_true_eq, decide_eq_false_iff_not]
      exact ⟨⟨hsne, hn⟩, hs⟩
  · intro hu
    by_cases hr : r = ""
    · subst hr
      unfold get_from_cache
      simp
    · cases cacheRoot with
      | none =>
        cases tgt? with
        | none =>
          unfold get_from_cache
          simp [hr]
        | some tgt =>
          rw [get_from_cache_nocache env r tgt req st hr]
          unfold no_cache_resolve
          rw [hu]
          simp only [Bool.false_eq_true, if_false]
          unfold fs_get
          cases hl : env.fsFiles.lookup r with
          | some s => cases hfl : s.fails <;> simp [hfl]
          | none => cases hd : env.fsDirs.contains r <;> simp [hd]
      | some cr =>
        rw [get_from_cache_cached env cr r req tgt? st hr]
        unfold cached_resolve
        cases ho : cache_open env r with
        | error e => rfl
        | ok s =>
          simp only [hu, Bool.false_eq_true, if_false]
          rw [cache_publish_urlDownloads_any]
  · intro hu
    by_cases hr : r = ""
    · subst hr
      unfold get_from_cache
      simp
    · cases cacheRoot with
      | none =>
        cases tgt? with
        | none =>
          unfold get_from_cache
          simp [hr]
        | some tgt =>
          rw [get_from_cache_nocache env r tgt req st hr]
          unfold no_cache_resolve
          rw [hu]
          simp only [if_true]
          unfold url_open
          cases hl : env.urlFiles.lookup r with
          | some s => cases hfl : s.fails <;> simp [hfl]
          | none => simp
      | some cr =>
        rw [get_from_cache_cached env cr r req tgt? st hr]
        unfold cached_resolve
        cases ho : cache_open env r with
        | error e => rfl
        | ok s =>
          simp only [hu, if_true]
          rw [cache_publish_fsDownloads_any]
  · intro hr
    subst hr
    unfold get_from_cache
    simp

/-- Witness for C10 (amended) at concrete inputs: an `s3://` reference incurs
no HTTP download, an `http://` reference incurs no filesystem download. -/
theorem C10_amended_url_routing_witness :
    is_valid_url "s3://b/k" = false ∧
    (get_from_cache envUnchanged (some "/c") "s3://b/k" false none emptySt).2.1.urlDownloads
      = 0 ∧
    is_valid_url "http://h/x" = true ∧
    (get_from_cache envUnchanged (some "/c") "http://h/x" false none emptySt).2.1.fsDownloads
      = 0 := by
  have h1 := (C10_amended_url_routing envUnchanged (some "/c") "s3://b/k" false none
    emptySt).2.1 (by decide)
  have h2 := (C10_amended_url_routing envUnchanged (some "/c") "http://h/x" false none
    emptySt).2.2.1 (by decide)
  exact ⟨by decide, h1, by decide, h2⟩
